import Mathlib

/-!
Verification of the stdio-network relay components of the repository:
`mcp_streaming_client.py` (Mode A: line-oriented stdio bridged to an HTTP
endpoint) and `python_tools/remote_claude_mcp_configs.py` (Mode B: raw duplex
byte relay between stdio and a TCP socket).

The Python code is shallowly embedded: the I/O environment (stdin lines, the
network, the `json` module parser) is passed in as explicit data/oracles, and
each loop is a structurally recursive Lean function whose result records the
observable trace (stdout writes, stderr diagnostics, HTTP requests or socket
sends, flushes, resource closes, exit code).
-/

namespace MCPGateway

/-! ## JSON values (the values Python's `json` module works with) -/

/-- A JSON value, as handled by Python's `json.loads` / `json.dumps`.
Numbers are modelled as integers (the JSON-RPC traffic of this program
uses only integers). -/
inductive Json where
  | null
  | bool (b : Bool)
  | num (n : Int)
  | str (s : String)
  | arr (elems : List Json)
  | obj (fields : List (String × Json))

/-- Python truthiness of a JSON value, as tested by `if response:` in
`MCPStreamingClient.run` (line 67): `None`, `False`, `0`, `""`, `[]` and
an empty dict are falsy; everything else is truthy. -/
def Json.truthy : Json → Bool
  | .null => false
  | .bool b => b
  | .num n => n != 0
  | .str s => !s.isEmpty
  | .arr elems => !elems.isEmpty
  | .obj fields => !fields.isEmpty

/-- Hex digit for string escaping. -/
def hexDigit (n : Nat) : Char :=
  if n < 10 then Char.ofNat (48 + n) else Char.ofNat (87 + n)

/-- Escape one character the way `json.dumps` renders it inside a string
literal (default `ensure_ascii` behaviour for the ASCII control range). -/
def escapeChar (c : Char) : String :=
  if c = '"' then "\\\""
  else if c = '\\' then "\\\\"
  else if c = '\n' then "\\n"
  else if c = '\r' then "\\r"
  else if c = '\t' then "\\t"
  else if c.toNat < 32 then
    "\\u00" ++ String.mk [hexDigit (c.toNat / 16), hexDigit (c.toNat % 16)]
  else String.singleton c

/-- Escape a whole string for a JSON string literal. -/
def escapeString (s : String) : String :=
  String.join (s.toList.map escapeChar)

mutual

/-- `json.dumps` with Python's default separators: items joined by a comma
and a space, keys and values joined by a colon and a space. -/
def Json.dumps : Json → String
  | .null => "null"
  | .bool true => "true"
  | .bool false => "false"
  | .num n => toString n
  | .str s => "\"" ++ escapeString s ++ "\""
  | .arr elems => "[" ++ dumpsElems elems ++ "]"
  | .obj fields => "\x7b" ++ dumpsFields fields ++ "\x7d"

/-- Render the element list of a JSON array. -/
def dumpsElems : List Json → String
  | [] => ""
  | [x] => Json.dumps x
  | x :: xs => Json.dumps x ++ ", " ++ dumpsElems xs

/-- Render the field list of a JSON object. -/
def dumpsFields : List (String × Json) → String
  | [] => ""
  | [(k, v)] => "\"" ++ escapeString k ++ "\": " ++ Json.dumps v
  | (k, v) :: fs =>
      "\"" ++ escapeString k ++ "\": " ++ Json.dumps v ++ ", " ++ dumpsFields fs

end

/-! ## Python string helpers used by the client -/

/-- The characters removed by Python's `str.strip()` with no argument
(ASCII whitespace; the code never feeds it non-ASCII whitespace). -/
def isPySpace (c : Char) : Bool :=
  c = ' ' || c = '\t' || c = '\n' || c = '\r' || c = '\x0b' || c = '\x0c'

/-- Python `line.strip()`: remove leading and trailing whitespace. -/
def pyStrip (s : String) : String :=
  String.mk (((s.toList.dropWhile isPySpace).reverse.dropWhile isPySpace).reverse)

/-- Python `base_url.rstrip('/')`: remove all trailing slash characters,
as done in `MCPStreamingClient.__init__` (line 26). -/
def pyRstripSlash (s : String) : String :=
  String.mk ((s.toList.reverse.dropWhile (fun c => c = '/')).reverse)

/-! ## Mode A: `MCPStreamingClient` (stdio to HTTP bridge) -/

/-- The data of one `session.post` call issued by
`MCPStreamingClient.forward_request` (lines 40-45). -/
structure HttpRequest where
  url : String
  contentType : String
  timeoutSecs : Nat
  body : Json

/-- What one `session.post` call can come back with, as observed by
`forward_request`: either the `requests` library raised (network failure,
timeout, ...), or an HTTP response with a status code and a body text
arrived. -/
inductive PostOutcome where
  | exn (msg : String)
  | resp (status : Nat) (body : String)
deriving DecidableEq, Repr

/-- `response.raise_for_status()` raises `HTTPError` exactly for 4xx and
5xx status codes. -/
def raisesForStatus (status : Nat) : Bool :=
  400 ≤ status && status < 600

/-- Stand-in for the text of the `HTTPError` raised by
`raise_for_status` (its exact wording comes from the `requests` library
and is not inspected by the program). -/
def httpErrorMessage (status : Nat) (url : String) : String :=
  toString status ++ " Error for url: " ++ url

/-- The request `forward_request` posts for a given JSON-RPC body: the URL
is the (already slash-stripped) base URL with `/mcp` appended, the header
is `Content-Type: application/json`, the timeout is 300 seconds
(lines 40-45 of `mcp_streaming_client.py`). -/
def postedRequest (base_url : String) (json_rpc : Json) : HttpRequest :=
  { url := base_url ++ "/mcp"
    contentType := "application/json"
    timeoutSecs := 300
    body := json_rpc }

/-- `MCPStreamingClient.forward_request` (lines 29-50): post the JSON-RPC
body; on any exception (transport error, `raise_for_status` on a 4xx/5xx
status, or `response.json()` failing to parse the body) print a
`Request error:` diagnostic to stderr and return `none`; otherwise return
the parsed JSON response body.  `parse` is the oracle for Python's JSON
parser (shared with `json.loads`); `net` gives the outcome of the post.
The result is (returned value, stderr lines, requests posted). -/
def forward_request (parse : String → Except String Json)
    (net : HttpRequest → PostOutcome)
    (base_url : String) (json_rpc : Json) :
    Option Json × List String × List HttpRequest :=
  let req := postedRequest base_url json_rpc
  match net req with
  | .exn e => (none, ["Request error: " ++ e], [req])
  | .resp status body =>
    if raisesForStatus status then
      (none, ["Request error: " ++ httpErrorMessage status req.url], [req])
    else
      match parse body with
      | .error e => (none, ["Request error: " ++ e], [req])
      | .ok j => (some j, [], [req])

/-- One line written to stdout by `print(..., flush=True)`; `flushed`
records whether the write was flushed immediately. -/
structure OutLine where
  text : String
  flushed : Bool
deriving DecidableEq, Repr

/-- Observable trace of a (piece of the) Mode A loop: stdout lines,
stderr lines, HTTP requests posted, in order. -/
structure RunAResult where
  stdout : List OutLine
  stderr : List String
  requests : List HttpRequest

/-- Concatenation of traces of consecutive loop iterations. -/
def RunAResult.append (a b : RunAResult) : RunAResult :=
  ⟨a.stdout ++ b.stdout, a.stderr ++ b.stderr, a.requests ++ b.requests⟩

/-- The body of `MCPStreamingClient.run` for a single stdin line
(lines 55-72): strip the line; skip it if blank; `json.loads` it, on
`JSONDecodeError` print a diagnostic to stderr and move on; otherwise
forward it, and print the response as one flushed stdout line — but only
`if response:`, i.e. only when the returned value is truthy in Python's
sense (a `none` return or a falsy JSON body produces no output). -/
def processLine (parse : String → Except String Json)
    (net1 : HttpRequest → PostOutcome)
    (base_url : String) (line : String) : RunAResult :=
  let stripped := pyStrip line
  if stripped = "" then ⟨[], [], []⟩
  else
    match parse stripped with
    | .error e => ⟨[], ["JSON decode error: " ++ e], []⟩
    | .ok request =>
      match forward_request parse net1 base_url request with
      | (some r, errs, reqs) =>
          ⟨if r.truthy then [⟨Json.dumps r, true⟩] else [], errs, reqs⟩
      | (none, errs, reqs) => ⟨[], errs, reqs⟩

/-- The `for line in sys.stdin` loop of `MCPStreamingClient.run`
(lines 55-72), over the list of stdin lines.  The network oracle `net` is
indexed by line position, so distinct lines of the session may meet
distinct network behaviour. -/
def runFrom (parse : String → Except String Json)
    (net : Nat → HttpRequest → PostOutcome)
    (base_url : String) : Nat → List String → RunAResult
  | _, [] => ⟨[], [], []⟩
  | k, line :: rest =>
      (processLine parse (net k) base_url line).append
        (runFrom parse net base_url (k + 1) rest)

/-- The client object: `__init__` (lines 19-27) stores
`base_url.rstrip('/')`. -/
structure MCPStreamingClient where
  base_url : String
deriving DecidableEq

/-- `MCPStreamingClient.__init__`. -/
def MCPStreamingClient.init (base_url : String) : MCPStreamingClient :=
  ⟨pyRstripSlash base_url⟩

/-- `MCPStreamingClient.run` until end-of-input: process every stdin
line. -/
def MCPStreamingClient.runLoop (c : MCPStreamingClient)
    (parse : String → Except String Json)
    (net : Nat → HttpRequest → PostOutcome)
    (lines : List String) : RunAResult :=
  runFrom parse net c.base_url 0 lines

/-! ### Line classification for the counting properties -/

/-- A line the loop skips: blank after stripping (line 57). -/
def isBlank (line : String) : Bool :=
  pyStrip line = ""

/-- A malformed input: non-blank, but `json.loads` raises
`JSONDecodeError` (line 71). -/
def isMalformed (parse : String → Except String Json) (line : String) : Bool :=
  !isBlank line &&
    match parse (pyStrip line) with
    | .error _ => true
    | .ok _ => false

/-- The value `response` at line 65 for this line, when a request is sent
at all: `some r` when `forward_request` returned the parsed body `r`,
`none` when it returned `None`, and `none` as well when no request was
sent (blank or malformed line). -/
def responseOf (parse : String → Except String Json)
    (net1 : HttpRequest → PostOutcome)
    (base_url : String) (line : String) : Option Json :=
  if isBlank line then none
  else
    match parse (pyStrip line) with
    | .error _ => none
    | .ok j => (forward_request parse net1 base_url j).1

/-- A failed request: the line parses, a request is posted, and
`forward_request` returns `None` (remote error path, lines 48-50). -/
def requestFails (parse : String → Except String Json)
    (net1 : HttpRequest → PostOutcome)
    (base_url : String) (line : String) : Bool :=
  !isBlank line &&
    !isMalformed parse line &&
    (responseOf parse net1 base_url line).isNone

/-- Boolean check that the value at line 65 for this line, if any, is
truthy: JSON-RPC responses always are (they are non-empty objects), but
the check matters because of the `if response:` test at line 67. -/
def responseTruthy (parse : String → Except String Json)
    (net1 : HttpRequest → PostOutcome)
    (base_url : String) (line : String) : Bool :=
  match responseOf parse net1 base_url line with
  | none => true
  | some r => r.truthy

/-- Number of malformed lines among the input lines. -/
def countMalformed (parse : String → Except String Json) :
    List String → Nat
  | [] => 0
  | line :: rest =>
      (if isMalformed parse line then 1 else 0) + countMalformed parse rest

/-- Number of failed requests among the input lines, the k-th line meeting
network oracle `net k`. -/
def countFailedFrom (parse : String → Except String Json)
    (net : Nat → HttpRequest → PostOutcome)
    (base_url : String) : Nat → List String → Nat
  | _, [] => 0
  | k, line :: rest =>
      (if requestFails parse (net k) base_url line then 1 else 0) +
        countFailedFrom parse net base_url (k + 1) rest

/-! ### Mode A process-level run (teardown, exit status) -/

/-- How the `for line in sys.stdin` body of `MCPStreamingClient.run` came
to an end: stdin reached end-of-stream; a `KeyboardInterrupt` arrived
after `j` lines had been handled; or some other exception escaped the
body after `j` lines (e.g. stdout breaking mid-`print`). -/
inductive StdinEndA where
  | eof
  | interrupted (j : Nat)
  | raised (j : Nat) (msg : String)
deriving DecidableEq, Repr

/-- Observable result of the whole Mode A process. -/
structure ProcResultA where
  trace : RunAResult
  sessionCloses : Nat
  exitCode : Nat

/-- `MCPStreamingClient.run` including its teardown (lines 52-77): the
loop body runs inside `try ... except KeyboardInterrupt: pass finally:
self.session.close()`.  End-of-input falls out of the loop normally;
`KeyboardInterrupt` is swallowed; any other exception propagates and makes
the interpreter exit nonzero; on every one of these paths the `finally`
clause closes the HTTP session exactly once.  Interrupts are modelled at
line granularity: the first `j` lines were fully handled. -/
def MCPStreamingClient.runProc (c : MCPStreamingClient)
    (parse : String → Except String Json)
    (net : Nat → HttpRequest → PostOutcome)
    (lines : List String) : StdinEndA → ProcResultA
  | .eof =>
      ⟨c.runLoop parse net lines, 1, 0⟩
  | .interrupted j =>
      ⟨c.runLoop parse net (lines.take j), 1, 0⟩
  | .raised j _ =>
      ⟨c.runLoop parse net (lines.take j), 1, 1⟩

/-! ## Mode B: `MCPNetworkBridge` (stdio to TCP socket relay),
from `python_tools/remote_claude_mcp_configs.py` -/

/-- A byte string, as read from `sys.stdin.buffer` or `socket.recv`. -/
abbrev Bytes := List Nat

/-- The buffer size of every `self.socket.recv(4096)` call (line 73). -/
def RECV_BUFSIZE : Nat := 4096

/-- `MCPNetworkBridge.forward_stdio_to_socket` (lines 46-63), run on a
connected socket.  `stdinReads` is the sequence of byte lines
`sys.stdin.buffer.readline()` yields; running off the end of the list, or
an empty element, is end-of-stream (`if not line: break`).  `sendErr k`
tells whether the k-th `sendall` raises, and with which message; a raised
send is caught by the surrounding `try`, printed to stderr, and ends the
loop.  Result: (byte lines written to the socket, stderr lines). -/
def forward_stdio_to_socket (sendErr : Nat → Option String) :
    Nat → List Bytes → List Bytes × List String
  | _, [] => ([], [])
  | k, line :: rest =>
    if line = [] then ([], [])
    else
      match sendErr k with
      | some e => ([], ["Error forwarding to socket: " ++ e])
      | none =>
        let p := forward_stdio_to_socket sendErr (k + 1) rest
        (line :: p.1, p.2)

/-- `MCPNetworkBridge.forward_socket_to_stdio` (lines 65-82), run on a
connected socket.  `recvs` is the sequence of outcomes of successive
`recv(4096)` calls: a chunk of bytes (empty = peer closed) or a raised
exception, which is caught, printed to stderr, and ends the loop; running
off the end of the list also stands for the peer closing.  Each received
non-empty chunk is written to stdout and flushed.  Result: (chunks written
to stdout, number of flushes, stderr lines). -/
def forward_socket_to_stdio :
    List (Except String Bytes) → List Bytes × Nat × List String
  | [] => ([], 0, [])
  | .error e :: _ => ([], 0, ["Error forwarding to stdio: " ++ e])
  | .ok data :: rest =>
    if data = [] then ([], 0, [])
    else
      let p := forward_socket_to_stdio rest
      (data :: p.1, p.2.1 + 1, p.2.2)

/-- Outcome of `MCPNetworkBridge.connect` (lines 31-44): the TCP connect
either succeeds or raises with a message. -/
inductive ConnectOutcome where
  | ok
  | fail (msg : String)
deriving DecidableEq, Repr

/-- How the main thread of `MCPNetworkBridge.run` came to the `finally`
clause: the socket-to-stdout loop returned (peer closed or recv error), or
a `KeyboardInterrupt` arrived after `j` recv events.  (`KeyboardInterrupt`
derives from `BaseException`, so the `except Exception` inside
`forward_socket_to_stdio` does not catch it; it reaches `run`'s own
handler.)  `i` is how many stdin reads the daemon stdin thread had
completed by then. -/
inductive BridgeEnd where
  | streamsEnd
  | interrupted (i j : Nat)
deriving DecidableEq, Repr

/-- Observable result of the whole Mode B process. -/
structure BridgeRunResult where
  exitCode : Nat
  stderr : List String
  socketSent : List Bytes
  stdoutWrites : List Bytes
  stdoutFlushes : Nat
  socketCloses : Nat
deriving DecidableEq, Repr

/-- `MCPNetworkBridge.run` (lines 84-104).  If `connect` fails it prints
`Connection failed:` to stderr and calls `sys.exit(1)` before any
forwarding; no close happens (the half-open socket object is reclaimed by
process exit).  Otherwise the stdin thread (daemon) pumps stdin to the
socket while the main thread pumps the socket to stdout; when the main
thread's loop ends — or a `KeyboardInterrupt` is caught — the `finally`
clause closes the socket exactly once and `run` returns, so the process
exits with status 0 (the daemon thread does not keep it alive).  The two
directions share no state, so each side's writes are its own loop's
result; stderr shows one interleaving of the two sides' diagnostics. -/
def MCPNetworkBridge.run (conn : ConnectOutcome)
    (sendErr : Nat → Option String) (stdinReads : List Bytes)
    (recvs : List (Except String Bytes)) : BridgeEnd → BridgeRunResult
  | e =>
    match conn with
    | .fail msg =>
        ⟨1, ["Connection failed: " ++ msg], [], [], 0, 0⟩
    | .ok =>
      match e with
      | .streamsEnd =>
        let s := forward_stdio_to_socket sendErr 0 stdinReads
        let w := forward_socket_to_stdio recvs
        ⟨0, s.2 ++ w.2.2, s.1, w.1, w.2.1, 1⟩
      | .interrupted i j =>
        let s := forward_stdio_to_socket sendErr 0 (stdinReads.take i)
        let w := forward_socket_to_stdio (recvs.take j)
        ⟨0, s.2 ++ w.2.2, s.1, w.1, w.2.1, 1⟩

/-! ## Concrete environments for instantiating the theorems -/

/-- A tiny JSON parser oracle for concrete runs: it recognises the two
payloads `[1]` and `[2]` and rejects everything else with the message
CPython's `json.loads` produces on garbage. -/
def wParse : String → Except String Json := fun s =>
  if s = "[1]" then .ok (Json.arr [Json.num 1])
  else if s = "[2]" then .ok (Json.arr [Json.num 2])
  else .error "Expecting value: line 1 column 1 (char 0)"

/-- Network oracle under which the third request fails with a transport
error and every other request answers 200 with body `[1]`. -/
def wNet : Nat → HttpRequest → PostOutcome := fun k _ =>
  if k = 2 then .exn "Connection refused" else .resp 200 "[1]"

/-- Network oracle answering 200 with body `[1]` to the first request and
`[2]` to every later one. -/
def w4Net : Nat → HttpRequest → PostOutcome := fun k _ =>
  if k = 0 then .resp 200 "[1]" else .resp 200 "[2]"

/-- The JSON body expected back for the k-th line under `w4Net`. -/
def w4resp : Nat → Json := fun k =>
  if k = 0 then Json.arr [Json.num 1] else Json.arr [Json.num 2]

/-- Parser oracle for the falsy-body scenarios: `[1]` parses to a truthy
array, `null` parses to JSON `null`, which is falsy in Python. -/
def cexParse : String → Except String Json := fun s =>
  if s = "[1]" then .ok (Json.arr [Json.num 1])
  else if s = "null" then .ok Json.null
  else .error "Expecting value: line 1 column 1 (char 0)"

/-- Network oracle answering every request with HTTP 200 and body `null`:
the request succeeds and the body is valid JSON, but it is falsy. -/
def cexNet : Nat → HttpRequest → PostOutcome := fun _ _ => .resp 200 "null"

/-- Network oracle answering HTTP 200 with a body that is not JSON. -/
def htmlNet : Nat → HttpRequest → PostOutcome := fun _ _ =>
  .resp 200 "<html>oops</html>"

/-- The JSON-RPC request of the echo scenario. -/
def echoRequestJson : Json :=
  Json.obj [("jsonrpc", Json.str "2.0"), ("id", Json.num 1),
            ("method", Json.str "search"),
            ("params", Json.obj [("query", Json.str "Docker")])]

/-- The JSON-RPC reply of the echo scenario's stub endpoint. -/
def echoResponseJson : Json :=
  Json.obj [("jsonrpc", Json.str "2.0"), ("id", Json.num 1),
            ("result", Json.obj
              [("content", Json.arr [Json.obj [("text", Json.str "ok")]])])]

/-- The stdin line of the echo scenario. -/
def echoRequestLine : String :=
  "\x7b\"jsonrpc\":\"2.0\",\"id\":1,\"method\":\"search\",\"params\":\x7b\"query\":\"Docker\"\x7d\x7d"

/-- The body text the stub endpoint returns in the echo scenario. -/
def echoResponseBody : String :=
  "\x7b\"jsonrpc\":\"2.0\",\"id\":1,\"result\":\x7b\"content\":[\x7b\"text\":\"ok\"\x7d]\x7d\x7d"

/-- Parser oracle that parses exactly the two texts of the echo
scenario. -/
def echoParse : String → Except String Json := fun s =>
  if s = echoRequestLine then .ok echoRequestJson
  else if s = echoResponseBody then .ok echoResponseJson
  else .error "Expecting value: line 1 column 1 (char 0)"

/-- The stub endpoint of the echo scenario: every post is answered with
HTTP 200 and the fixed echo body. -/
def echoNet : Nat → HttpRequest → PostOutcome := fun _ _ =>
  .resp 200 echoResponseBody

/-! ## Helper lemmas -/

/-- Whatever the network does, `forward_request` posts exactly one
request, the one built by `postedRequest`. -/
theorem forward_request_posts (parse : String → Except String Json)
    (net1 : HttpRequest → PostOutcome) (base_url : String) (j : Json) :
    (forward_request parse net1 base_url j).2.2 = [postedRequest base_url j] := by
  cases h : net1 (postedRequest base_url j) with
  | exn e => simp [forward_request, h]
  | resp status body =>
    cases hp : parse body with
    | error e =>
      by_cases hr : raisesForStatus status = true <;>
        simp [forward_request, h, hp, hr]
    | ok r =>
      by_cases hr : raisesForStatus status = true <;>
        simp [forward_request, h, hp, hr]

/-- A blank stdin line is skipped entirely: no request, no stdout, no
stderr. -/
theorem processLine_blank (parse : String → Except String Json)
    (net1 : HttpRequest → PostOutcome) (base_url line : String)
    (h : isBlank line = true) :
    processLine parse net1 base_url line = ⟨[], [], []⟩ := by
  simp only [isBlank, decide_eq_true_eq] at h
  simp [processLine, h]

/-- A non-blank line `json.loads` rejects yields only the decode-error
diagnostic. -/
theorem processLine_decode_error (parse : String → Except String Json)
    (net1 : HttpRequest → PostOutcome) (base_url line e : String)
    (hnb : isBlank line = false) (hp : parse (pyStrip line) = .error e) :
    processLine parse net1 base_url line =
      ⟨[], ["JSON decode error: " ++ e], []⟩ := by
  simp only [isBlank, decide_eq_false_iff_not] at hnb
  simp [processLine, hnb, hp]

/-- Every non-blank line handled with a truthy (or absent) response
contributes exactly one to `stdout-lines + failed + malformed`. -/
theorem processLine_stdout_length (parse : String → Except String Json)
    (net1 : HttpRequest → PostOutcome) (base_url line : String)
    (hnb : isBlank line = false)
    (ht : responseTruthy parse net1 base_url line = true) :
    (processLine parse net1 base_url line).stdout.length
      + (if requestFails parse net1 base_url line then 1 else 0)
      + (if isMalformed parse line then 1 else 0) = 1 := by
  have hnb' : ¬ (pyStrip line = "") := by
    simpa [isBlank, decide_eq_false_iff_not] using hnb
  cases hp : parse (pyStrip line) with
  | error e =>
    have hm : isMalformed parse line = true := by
      simp [isMalformed, hnb, hp]
    have hf : requestFails parse net1 base_url line = false := by
      simp [requestFails, hm]
    simp [processLine_decode_error parse net1 base_url line e hnb hp, hm, hf]
  | ok j =>
    have hm : isMalformed parse line = false := by
      simp [isMalformed, hnb, hp]
    rcases hfr : forward_request parse net1 base_url j with ⟨o, errs, reqs⟩
    have hro : responseOf parse net1 base_url line = o := by
      simp [responseOf, hnb, hp, hfr]
    cases o with
    | none =>
      have hf : requestFails parse net1 base_url line = true := by
        simp [requestFails, hnb, hm, hro]
      simp [processLine, hnb', hp, hfr, hf, hm]
    | some r =>
      have htr : r.truthy = true := by
        simpa [responseTruthy, hro] using ht
      have hf : requestFails parse net1 base_url line = false := by
        simp [requestFails, hro]
      simp [processLine, hnb', hp, hfr, hf, hm, htr]

/-- Additive form of the Mode A output-count property, generalized over
the starting line index. -/
theorem runFrom_stdout_length (parse : String → Except String Json)
    (net : Nat → HttpRequest → PostOutcome) (base_url : String)
    (lines : List String) (k : Nat)
    (hnb : ∀ l ∈ lines, isBlank l = false)
    (ht : ∀ p ∈ List.enumFrom k lines,
      responseTruthy parse (net p.1) base_url p.2 = true) :
    (runFrom parse net base_url k lines).stdout.length
      + countFailedFrom parse net base_url k lines
      + countMalformed parse lines = lines.length := by
  induction lines generalizing k with
  | nil => simp [runFrom, countFailedFrom, countMalformed]
  | cons line rest ih =>
    have henum : List.enumFrom k (line :: rest)
        = (k, line) :: List.enumFrom (k + 1) rest := rfl
    have h1 := processLine_stdout_length parse (net k) base_url line
      (hnb line (by simp))
      (ht (k, line) (by rw [henum]; exact List.mem_cons_self _ _))
    have h2 := ih (k + 1) (fun l hl => hnb l (List.mem_cons_of_mem _ hl))
      (fun p hp => ht p (by rw [henum]; exact List.mem_cons_of_mem _ hp))
    simp only [runFrom, RunAResult.append, countFailedFrom, countMalformed,
      List.length_append, List.length_cons] at *
    omega

/-- A line whose request came back with a truthy JSON body produces
exactly its serialized response on stdout, flushed. -/
theorem processLine_stdout_of_response (parse : String → Except String Json)
    (net1 : HttpRequest → PostOutcome) (base_url line : String) (r : Json)
    (hro : responseOf parse net1 base_url line = some r)
    (htr : r.truthy = true) :
    (processLine parse net1 base_url line).stdout
      = [⟨Json.dumps r, true⟩] := by
  by_cases hb : pyStrip line = ""
  · simp [responseOf, isBlank, hb] at hro
  · cases hp : parse (pyStrip line) with
    | error e => simp [responseOf, isBlank, hb, hp] at hro
    | ok j =>
      rcases hfr : forward_request parse net1 base_url j with ⟨o, errs, reqs⟩
      have ho : o = some r := by
        simpa [responseOf, isBlank, hb, hp, hfr] using hro
      subst ho
      simp [processLine, hb, hp, hfr, htr]

/-- Mode A: when every response is truthy, the stdout lines are exactly
the serialized responses, one per line, in input order. -/
theorem runFrom_stdout_map (parse : String → Except String Json)
    (net : Nat → HttpRequest → PostOutcome) (base_url : String)
    (lines : List String) (k : Nat) (resp : Nat → Json)
    (hok : ∀ p ∈ List.enumFrom k lines,
      responseOf parse (net p.1) base_url p.2 = some (resp p.1) ∧
        (resp p.1).truthy = true) :
    (runFrom parse net base_url k lines).stdout
      = (List.enumFrom k lines).map
          (fun p => ⟨Json.dumps (resp p.1), true⟩) := by
  induction lines generalizing k with
  | nil => simp [runFrom]
  | cons line rest ih =>
    have henum : List.enumFrom k (line :: rest)
        = (k, line) :: List.enumFrom (k + 1) rest := rfl
    obtain ⟨hro, htr⟩ :=
      hok (k, line) (by rw [henum]; exact List.mem_cons_self _ _)
    have h1 := processLine_stdout_of_response parse (net k) base_url line
      (resp k) hro htr
    have h2 := ih (k + 1)
      (fun p hp => hok p (by rw [henum]; exact List.mem_cons_of_mem _ hp))
    simp [runFrom, RunAResult.append, henum, h1, h2]

/-- With no write failure and no empty stdin read, every stdin line goes
to the socket unmodified and in order, with no diagnostic. -/
theorem forward_stdio_all (k : Nat) (lines : List Bytes)
    (hl : ∀ l ∈ lines, l ≠ ([] : Bytes)) :
    forward_stdio_to_socket (fun _ => none) k lines = (lines, []) := by
  induction lines generalizing k with
  | nil => rfl
  | cons line rest ih =>
    have h1 : ¬ (line = ([] : Bytes)) := hl line (by simp)
    simp [forward_stdio_to_socket, h1,
      ih (k + 1) (fun l hl2 => hl l (List.mem_cons_of_mem _ hl2))]

/-- Whatever fails and wherever the input ends, the byte lines that
reached the socket are a prefix of the stdin lines: nothing is reordered
or altered. -/
theorem forward_stdio_sent_prefix (sendErr : Nat → Option String) (k : Nat)
    (lines : List Bytes) :
    ∃ rest, (forward_stdio_to_socket sendErr k lines).1 ++ rest = lines := by
  induction lines generalizing k with
  | nil => exact ⟨[], rfl⟩
  | cons line rest0 ih =>
    by_cases h1 : line = ([] : Bytes)
    · exact ⟨line :: rest0, by simp [forward_stdio_to_socket, h1]⟩
    · cases hs : sendErr k with
      | some e =>
        exact ⟨line :: rest0, by simp [forward_stdio_to_socket, h1, hs]⟩
      | none =>
        obtain ⟨r, hr⟩ := ih (k + 1)
        exact ⟨r, by simp [forward_stdio_to_socket, h1, hs, hr]⟩

/-- With no recv failure and no empty chunk in the trace, every received
chunk is written to stdout unmodified and in order, with one flush per
write and no diagnostic. -/
theorem forward_socket_all (chunks : List Bytes)
    (hc : ∀ c ∈ chunks, c ≠ ([] : Bytes)) :
    forward_socket_to_stdio (chunks.map Except.ok)
      = (chunks, chunks.length, []) := by
  induction chunks with
  | nil => rfl
  | cons c rest ih =>
    have h1 : ¬ (c = ([] : Bytes)) := hc c (by simp)
    simp [forward_socket_to_stdio, h1,
      ih (fun c2 h => hc c2 (List.mem_cons_of_mem _ h))]

/-- The chunks written to stdout are an unmodified, in-order prefix of
the received chunks. -/
theorem forward_socket_writes_prefix (recvs : List (Except String Bytes)) :
    ∃ rest, ((forward_socket_to_stdio recvs).1.map Except.ok) ++ rest
      = recvs := by
  induction recvs with
  | nil => exact ⟨[], rfl⟩
  | cons x rest0 ih =>
    cases x with
    | error e => exact ⟨.error e :: rest0, by simp [forward_socket_to_stdio]⟩
    | ok data =>
      by_cases h1 : data = ([] : Bytes)
      · exact ⟨.ok data :: rest0, by simp [forward_socket_to_stdio, h1]⟩
      · obtain ⟨r, hr⟩ := ih
        exact ⟨r, by simp [forward_socket_to_stdio, h1, hr]⟩

/-- Stdout is flushed after each write: the flush count always equals the
number of chunks written. -/
theorem forward_socket_flush_per_write (recvs : List (Except String Bytes)) :
    (forward_socket_to_stdio recvs).2.1
      = (forward_socket_to_stdio recvs).1.length := by
  induction recvs with
  | nil => rfl
  | cons x rest ih =>
    cases x with
    | error e => rfl
    | ok data =>
      by_cases h : data = ([] : Bytes) <;>
        simp [forward_socket_to_stdio, h, ih]

/-- Dropping a run of elements satisfying the predicate in front of a
list is invisible to `dropWhile`. -/
theorem dropWhile_replicate_append (p : Char → Bool) (a : Char)
    (h : p a = true) (k : Nat) (l : List Char) :
    List.dropWhile p (List.replicate k a ++ l) = List.dropWhile p l := by
  induction k with
  | zero => simp
  | succ n ih => simp [List.replicate_succ, List.dropWhile_cons, h, ih]

/-- `rstrip('/')` absorbs any run of trailing slashes. -/
theorem pyRstripSlash_append_slashes (u : String) (k : Nat) :
    pyRstripSlash (u ++ String.mk (List.replicate k '/')) = pyRstripSlash u := by
  unfold pyRstripSlash
  have hdata : (u ++ String.mk (List.replicate k '/')).toList
      = u.toList ++ List.replicate k '/' := by
    simp [String.toList]
  rw [hdata, List.reverse_append, List.reverse_replicate,
    dropWhile_replicate_append _ '/' (by decide)]

/-! ## The claims -/

/-- C3: in HTTP mode, every non-blank input line that is not valid JSON
makes the bridge write a diagnostic to the error channel, produce no
outbound message for that line (no stdout line and no HTTP request), and
continue with the subsequent lines instead of terminating. -/
theorem claim_C3 (parse : String → Except String Json)
    (net : Nat → HttpRequest → PostOutcome) (base_url line e : String)
    (k : Nat) (rest : List String)
    (hnb : isBlank line = false)
    (hp : parse (pyStrip line) = .error e) :
    processLine parse (net k) base_url line
      = ⟨[], ["JSON decode error: " ++ e], []⟩ ∧
    runFrom parse net base_url k (line :: rest)
      = ⟨(runFrom parse net base_url (k + 1) rest).stdout,
         ("JSON decode error: " ++ e)
           :: (runFrom parse net base_url (k + 1) rest).stderr,
         (runFrom parse net base_url (k + 1) rest).requests⟩ := by
  have h1 := processLine_decode_error parse (net k) base_url line e hnb hp
  refine ⟨h1, ?_⟩
  simp [runFrom, h1, RunAResult.append]

/-- Instance of C3: the malformed line `bad` at position 1 yields only
the decode diagnostic and the loop goes on with `[2]`. -/
theorem claim_C3_witness :
    processLine wParse (wNet 1) (pyRstripSlash "http://g") "bad"
      = ⟨[], ["JSON decode error: Expecting value: line 1 column 1 (char 0)"],
         []⟩ ∧
    runFrom wParse wNet (pyRstripSlash "http://g") 1 ["bad", "[2]"]
      = ⟨(runFrom wParse wNet (pyRstripSlash "http://g") 2 ["[2]"]).stdout,
         "JSON decode error: Expecting value: line 1 column 1 (char 0)"
           :: (runFrom wParse wNet (pyRstripSlash "http://g") 2 ["[2]"]).stderr,
         (runFrom wParse wNet (pyRstripSlash "http://g") 2 ["[2]"]).requests⟩ :=
  claim_C3 wParse wNet (pyRstripSlash "http://g") "bad"
    "Expecting value: line 1 column 1 (char 0)" 1 ["[2]"] (by decide) rfl

/-- C8: blank lines are skipped without any forwarding, and every
non-blank JSON line is posted exactly once, to the URL formed from the
slash-stripped base URL with `/mcp` appended, with a
`Content-Type: application/json` header and a 300-second timeout. -/
theorem claim_C8 (parse : String → Except String Json)
    (net : Nat → HttpRequest → PostOutcome) (url line : String)
    (k : Nat) (j : Json) :
    (isBlank line = true →
      processLine parse (net k) (MCPStreamingClient.init url).base_url line
        = ⟨[], [], []⟩) ∧
    (isBlank line = false → parse (pyStrip line) = .ok j →
      (processLine parse (net k)
        (MCPStreamingClient.init url).base_url line).requests
        = [{ url := pyRstripSlash url ++ "/mcp",
             contentType := "application/json",
             timeoutSecs := 300,
             body := j }]) := by
  constructor
  · intro hb
    exact processLine_blank parse (net k) _ line hb
  · intro hnb hp
    have hnb' : ¬ (pyStrip line = "") := by
      simpa [isBlank, decide_eq_false_iff_not] using hnb
    rcases hfr : forward_request parse (net k)
        (MCPStreamingClient.init url).base_url j with ⟨o, errs, reqs⟩
    have hreq : reqs = [postedRequest (pyRstripSlash url) j] := by
      have h2 := forward_request_posts parse (net k)
        (MCPStreamingClient.init url).base_url j
      rw [hfr] at h2
      simpa [MCPStreamingClient.init] using h2
    cases o with
    | none => simp [processLine, hnb', hp, hfr, hreq, postedRequest]
    | some r => simp [processLine, hnb', hp, hfr, hreq, postedRequest]

/-- Instance of C8: a whitespace line is skipped outright; the line `[1]`
is posted to `http://g/mcp` with the JSON content type and the 300-second
timeout. -/
theorem claim_C8_witness :
    processLine wParse (wNet 0) (MCPStreamingClient.init "http://g/").base_url "  "
      = ⟨[], [], []⟩ ∧
    (processLine wParse (wNet 0)
      (MCPStreamingClient.init "http://g/").base_url "[1]").requests
      = [{ url := pyRstripSlash "http://g/" ++ "/mcp",
           contentType := "application/json",
           timeoutSecs := 300,
           body := Json.arr [Json.num 1] }] :=
  ⟨(claim_C8 wParse wNet "http://g/" "  " 0 (Json.arr [Json.num 1])).1
      (by decide),
   (claim_C8 wParse wNet "http://g/" "[1]" 0 (Json.arr [Json.num 1])).2
      (by decide) rfl⟩

/-- C10: a 2xx response whose body is not valid JSON is handled exactly
like a remote call error: one `Request error` diagnostic on stderr, no
stdout line, and the loop continues with the subsequent lines. -/
theorem claim_C10 (parse : String → Except String Json)
    (net : Nat → HttpRequest → PostOutcome)
    (base_url line body e : String) (k status : Nat) (j : Json)
    (rest : List String)
    (hnb : isBlank line = false)
    (hp : parse (pyStrip line) = .ok j)
    (hn : net k (postedRequest base_url j) = .resp status body)
    (h2xx : 200 ≤ status ∧ status < 300)
    (hb : parse body = .error e) :
    processLine parse (net k) base_url line
      = ⟨[], ["Request error: " ++ e], [postedRequest base_url j]⟩ ∧
    runFrom parse net base_url k (line :: rest)
      = ⟨(runFrom parse net base_url (k + 1) rest).stdout,
         ("Request error: " ++ e)
           :: (runFrom parse net base_url (k + 1) rest).stderr,
         postedRequest base_url j
           :: (runFrom parse net base_url (k + 1) rest).requests⟩ := by
  have hnb' : ¬ (pyStrip line = "") := by
    simpa [isBlank, decide_eq_false_iff_not] using hnb
  have hrs : raisesForStatus status = false := by
    simp only [raisesForStatus, Bool.and_eq_false_iff, decide_eq_false_iff_not]
    omega
  have h1 : processLine parse (net k) base_url line
      = ⟨[], ["Request error: " ++ e], [postedRequest base_url j]⟩ := by
    simp [processLine, hnb', hp, forward_request, hn, hrs, hb]
  exact ⟨h1, by simp [runFrom, h1, RunAResult.append]⟩

/-- Instance of C10: a 200 response whose body is an HTML page is
reported on stderr and produces no stdout line. -/
theorem claim_C10_witness :
    processLine wParse (htmlNet 0) (pyRstripSlash "http://g") "[1]"
      = ⟨[], ["Request error: Expecting value: line 1 column 1 (char 0)"],
         [postedRequest (pyRstripSlash "http://g") (Json.arr [Json.num 1])]⟩ ∧
    runFrom wParse htmlNet (pyRstripSlash "http://g") 0 ["[1]", "bad"]
      = ⟨(runFrom wParse htmlNet (pyRstripSlash "http://g") 1 ["bad"]).stdout,
         "Request error: Expecting value: line 1 column 1 (char 0)"
           :: (runFrom wParse htmlNet (pyRstripSlash "http://g") 1 ["bad"]).stderr,
         postedRequest (pyRstripSlash "http://g") (Json.arr [Json.num 1])
           :: (runFrom wParse htmlNet (pyRstripSlash "http://g") 1 ["bad"]).requests⟩ :=
  claim_C10 wParse htmlNet (pyRstripSlash "http://g") "[1]"
    "<html>oops</html>" "Expecting value: line 1 column 1 (char 0)" 0 200
    (Json.arr [Json.num 1]) ["bad"] (by decide) rfl rfl
    (by constructor <;> omega) rfl

/-- C9: the client built from a base URL with any number of trailing
slashes appended is the very client built from the bare URL, and both
post to the slash-stripped base URL with `/mcp` appended. -/
theorem claim_C9 (u : String) (k : Nat) (j : Json) :
    MCPStreamingClient.init (u ++ String.mk (List.replicate k '/'))
      = MCPStreamingClient.init u ∧
    (postedRequest (MCPStreamingClient.init u).base_url j).url
      = pyRstripSlash u ++ "/mcp" := by
  constructor
  · simp [MCPStreamingClient.init, pyRstripSlash_append_slashes]
  · rfl

/-- C2 (amended): a non-blank JSON line whose POST succeeds (2xx) with a
JSON body that is truthy in Python's sense is answered with exactly one
stdout line — the serialization of that body — flushed immediately, with
no stderr output.  The amendment adds the truthiness requirement (always
met by JSON-RPC responses): the source guards the reply with
`if response:`, so a falsy JSON body such as `null` or an empty object
produces no stdout line. -/
theorem claim_C2 (parse : String → Except String Json)
    (net : Nat → HttpRequest → PostOutcome)
    (base_url line body : String) (k status : Nat) (j r : Json)
    (hnb : isBlank line = false)
    (hp : parse (pyStrip line) = .ok j)
    (hn : net k (postedRequest base_url j) = .resp status body)
    (h2xx : 200 ≤ status ∧ status < 300)
    (hb : parse body = .ok r)
    (ht : r.truthy = true) :
    processLine parse (net k) base_url line
      = ⟨[⟨Json.dumps r, true⟩], [], [postedRequest base_url j]⟩ := by
  have hnb' : ¬ (pyStrip line = "") := by
    simpa [isBlank, decide_eq_false_iff_not] using hnb
  have hrs : raisesForStatus status = false := by
    simp only [raisesForStatus, Bool.and_eq_false_iff, decide_eq_false_iff_not]
    omega
  simp [processLine, hnb', hp, forward_request, hn, hrs, hb, ht]

/-- The echo scenario, as an instance of C2: the JSON-RPC search request
posted to the echoing stub produces exactly the echoed JSON as one
flushed output line, with no error-channel output. -/
theorem claim_C2_witness :
    processLine echoParse (echoNet 0)
      (MCPStreamingClient.init "http://192.168.1.231:8080").base_url
      echoRequestLine
      = ⟨[⟨Json.dumps echoResponseJson, true⟩], [],
         [postedRequest
           (MCPStreamingClient.init "http://192.168.1.231:8080").base_url
           echoRequestJson]⟩ :=
  claim_C2 echoParse echoNet
    (MCPStreamingClient.init "http://192.168.1.231:8080").base_url
    echoRequestLine echoResponseBody 0 200 echoRequestJson echoResponseJson
    (by decide) rfl rfl (by omega) rfl (by decide)

/-- C2 fails as stated, without the truthiness amendment: the POST for
line `[1]` succeeds with HTTP 200 and the valid JSON body `null`, yet the
client writes no stdout line at all for it. -/
theorem claim_C2_counterexample :
    cexNet 0 (postedRequest (pyRstripSlash "http://g") (Json.arr [Json.num 1]))
      = .resp 200 "null" ∧
    cexParse "null" = .ok Json.null ∧
    cexParse (pyStrip "[1]") = .ok (Json.arr [Json.num 1]) ∧
    isBlank "[1]" = false ∧
    (processLine cexParse (cexNet 0) (pyRstripSlash "http://g") "[1]").stdout.length
      = 0 :=
  ⟨rfl, rfl, rfl, by decide, rfl⟩

/-- C1 (amended): over non-blank lines, and provided every successful
response body is truthy in Python's sense (JSON-RPC bodies always are),
each line whose request succeeds keeps its output line even when other
requests fail, and the number of stdout lines is N minus the failed
requests minus the malformed lines.  The amendment adds the truthiness
proviso: a successful response with a falsy JSON body is dropped by the
`if response:` guard and lowers the count further. -/
theorem claim_C1 (parse : String → Except String Json)
    (net : Nat → HttpRequest → PostOutcome) (url : String)
    (lines : List String)
    (hnb : ∀ l ∈ lines, isBlank l = false)
    (ht : ∀ p ∈ List.enumFrom 0 lines,
      responseTruthy parse (net p.1)
        (MCPStreamingClient.init url).base_url p.2 = true) :
    ((MCPStreamingClient.init url).runLoop parse net lines).stdout.length
      = lines.length
        - countFailedFrom parse net (MCPStreamingClient.init url).base_url 0 lines
        - countMalformed parse lines := by
  have h := runFrom_stdout_length parse net
    (MCPStreamingClient.init url).base_url lines 0 hnb ht
  unfold MCPStreamingClient.runLoop
  omega

/-- Instance of C1: of the three lines, the first succeeds, the second is
malformed, the third's request fails; exactly 3 - 1 - 1 = 1 output line
remains. -/
theorem claim_C1_witness :
    ((MCPStreamingClient.init "http://g").runLoop wParse wNet
        ["[1]", "bad", "[2]"]).stdout.length
      = (["[1]", "bad", "[2]"] : List String).length
        - countFailedFrom wParse wNet (MCPStreamingClient.init "http://g").base_url
            0 ["[1]", "bad", "[2]"]
        - countMalformed wParse ["[1]", "bad", "[2]"] :=
  claim_C1 wParse wNet "http://g" ["[1]", "bad", "[2]"] (by decide) (by decide)

/-- C1 fails as stated, without the truthiness amendment: one line, no
failed request, no malformed line, yet 0 output lines instead of 1,
because the successful response body `null` is falsy. -/
theorem claim_C1_counterexample :
    ¬ (((MCPStreamingClient.init "http://g").runLoop cexParse cexNet
          ["[1]"]).stdout.length
        = (["[1]"] : List String).length
          - countFailedFrom cexParse cexNet
              (MCPStreamingClient.init "http://g").base_url 0 ["[1]"]
          - countMalformed cexParse ["[1]"]) := by
  decide

/-- C4 (amended): when every line's request succeeds with a truthy JSON
body, the stdout lines are exactly the successive serialized responses,
one per input line, in the order of the corresponding inputs (1:1 and
in-order).  The amendment adds the truthiness requirement: a success
whose body is falsy contributes no output line, breaking the 1:1
correspondence. -/
theorem claim_C4 (parse : String → Except String Json)
    (net : Nat → HttpRequest → PostOutcome) (url : String)
    (lines : List String) (resp : Nat → Json)
    (hok : ∀ p ∈ List.enumFrom 0 lines,
      responseOf parse (net p.1) (MCPStreamingClient.init url).base_url p.2
          = some (resp p.1) ∧
        (resp p.1).truthy = true) :
    ((MCPStreamingClient.init url).runLoop parse net lines).stdout
      = (List.enumFrom 0 lines).map
          (fun p => ⟨Json.dumps (resp p.1), true⟩) :=
  runFrom_stdout_map parse net (MCPStreamingClient.init url).base_url
    lines 0 resp hok

/-- Instance of C4: two lines, both successful, produce their two
responses in input order. -/
theorem claim_C4_witness :
    ((MCPStreamingClient.init "http://g").runLoop wParse w4Net
        ["[1]", "[2]"]).stdout
      = (List.enumFrom 0 ["[1]", "[2]"]).map
          (fun p => ⟨Json.dumps (w4resp p.1), true⟩) :=
  claim_C4 wParse w4Net "http://g" ["[1]", "[2]"] w4resp (by
    intro p hp
    have h : List.enumFrom 0 ["[1]", "[2]"] = [(0, "[1]"), (1, "[2]")] := rfl
    rw [h] at hp
    simp only [List.mem_cons, List.not_mem_nil, or_false] at hp
    rcases hp with rfl | rfl
    · exact ⟨rfl, by decide⟩
    · exact ⟨rfl, by decide⟩)

/-- C4 fails as stated, without the truthiness amendment: the single
line's request succeeds (its response is JSON `null`), yet stdout has no
line, so the correspondence with successful requests is not 1:1. -/
theorem claim_C4_counterexample :
    responseOf cexParse (cexNet 0)
        (MCPStreamingClient.init "http://g").base_url "[1]"
      = some Json.null ∧
    ((MCPStreamingClient.init "http://g").runLoop cexParse cexNet
        ["[1]"]).stdout.length
      ≠ (["[1]"] : List String).length :=
  ⟨rfl, by decide⟩

/-- C5: within each direction the TCP relay is a pure byte-pipe.  When
nothing fails and no read is empty, the stdin lines reach the socket
exactly, unmodified and in order, and the recv(4096) chunks reach stdout
exactly, with one flush per write and no diagnostic; and under arbitrary
failures each direction still emits an unmodified, in-order prefix of its
source, the flush count always matching the write count. -/
theorem claim_C5 (lines chunks : List Bytes) (sendErr : Nat → Option String)
    (recvs : List (Except String Bytes)) (k : Nat)
    (hl : ∀ l ∈ lines, l ≠ ([] : Bytes))
    (hc : ∀ c ∈ chunks, c ≠ ([] : Bytes) ∧ c.length ≤ RECV_BUFSIZE) :
    forward_stdio_to_socket (fun _ => none) 0 lines = (lines, []) ∧
    (∃ rest, (forward_stdio_to_socket sendErr k lines).1 ++ rest = lines) ∧
    forward_socket_to_stdio (chunks.map Except.ok)
      = (chunks, chunks.length, []) ∧
    (∃ rest, ((forward_socket_to_stdio recvs).1.map Except.ok) ++ rest
      = recvs) ∧
    (forward_socket_to_stdio recvs).2.1
      = (forward_socket_to_stdio recvs).1.length :=
  ⟨forward_stdio_all 0 lines hl,
   forward_stdio_sent_prefix sendErr k lines,
   forward_socket_all chunks (fun c h => (hc c h).1),
   forward_socket_writes_prefix recvs,
   forward_socket_flush_per_write recvs⟩

/-- Instance of C5: the line `hi\n` is relayed whole when sends work and
truncated to a prefix when the first send fails; a received chunk is
written and flushed once; a failing recv still yields a (here empty)
prefix with flushes matching writes. -/
theorem claim_C5_witness :
    forward_stdio_to_socket (fun _ => none) 0 [[104, 105, 10]]
      = ([[104, 105, 10]], []) ∧
    (∃ rest, (forward_stdio_to_socket (fun _ => some "Broken pipe") 0
        [[104, 105, 10]]).1 ++ rest = [[104, 105, 10]]) ∧
    forward_socket_to_stdio ([[104, 105, 10]].map Except.ok)
      = ([[104, 105, 10]], 1, []) ∧
    (∃ rest, ((forward_socket_to_stdio
        [Except.error "Connection reset"]).1.map Except.ok) ++ rest
      = [Except.error "Connection reset"]) ∧
    (forward_socket_to_stdio [Except.error "Connection reset"]).2.1
      = (forward_socket_to_stdio [Except.error "Connection reset"]).1.length :=
  claim_C5 [[104, 105, 10]] [[104, 105, 10]] (fun _ => some "Broken pipe")
    [Except.error "Connection reset"] 0 (by decide) (by decide)

/-- C6: a failed TCP connect is fatal — one diagnostic on the error
channel, exit status 1, and no forwarding or close happens; with the
connection up, every shutdown path (peer closing or recv failure ending
the loop, or an interrupt) exits with status 0. -/
theorem claim_C6 (msg : String) (sendErr : Nat → Option String)
    (stdinReads : List Bytes) (recvs : List (Except String Bytes))
    (e e2 : BridgeEnd) :
    MCPNetworkBridge.run (.fail msg) sendErr stdinReads recvs e
      = ⟨1, ["Connection failed: " ++ msg], [], [], 0, 0⟩ ∧
    (MCPNetworkBridge.run .ok sendErr stdinReads recvs e2).exitCode = 0 := by
  constructor
  · cases e <;> rfl
  · cases e2 <;> rfl

/-- C7: on every modelled exit path the connection resource is released
exactly once — the HTTP session in Mode A, the socket in Mode B — and the
end-of-input path (Mode A) and the socket-closure and interrupt paths
(Mode B) exit with status 0. -/
theorem claim_C7 (c : MCPStreamingClient) (parse : String → Except String Json)
    (net : Nat → HttpRequest → PostOutcome) (lines : List String)
    (eA : StdinEndA) (sendErr : Nat → Option String) (stdinReads : List Bytes)
    (recvs : List (Except String Bytes)) (eB : BridgeEnd) (j : Nat) :
    (c.runProc parse net lines eA).sessionCloses = 1 ∧
    (c.runProc parse net lines .eof).exitCode = 0 ∧
    (c.runProc parse net lines (.interrupted j)).exitCode = 0 ∧
    (MCPNetworkBridge.run .ok sendErr stdinReads recvs eB).socketCloses = 1 ∧
    (MCPNetworkBridge.run .ok sendErr stdinReads recvs eB).exitCode = 0 := by
  refine ⟨?_, rfl, rfl, ?_, ?_⟩
  · cases eA <;> rfl
  · cases eB <;> rfl
  · cases eB <;> rfl

end MCPGateway
